import Mathlib

/-!
# WSeries firmware: runtime configuration, persistence and the update endpoints

A shallow embedding of `src/main.cpp`: the global `cfg` record, `loadDefaults`,
`loadConfig`, `saveConfig`, the `GET /api/config` document and the four
`POST /api/config/*` body handlers.

The program is written against two external collaborators, the ArduinoJson 6
library and the C++ floating-point types.  The program itself never computes
with a `float`, it only moves floats between the record and JSON variants, so
the float types are type parameters `F` (C `float`) and `D` (ArduinoJson's
`JsonFloat`), and every operation that the toolchain or the library supplies
is a field of `Platform`.  The JSON variant tree and the typed readers
`as<T>()` follow the conversion rules of ArduinoJson 6.
-/

namespace WSeries

/-! ## JSON variants (ArduinoJson) -/

/-- The value tree held by a `DynamicJsonDocument`: null, boolean, integer,
floating point (payload `D`, the library's `JsonFloat`), string, array, object.
An object is its member list in insertion order. -/
inductive JsonVal (D : Type) where
  | null
  | bool (b : Bool)
  | int (n : Int)
  | float (x : D)
  | str (s : String)
  | arr (xs : List (JsonVal D))
  | obj (members : List (String × JsonVal D))

/-- Member access `v["key"]`: the first member with that key when `v` is an
object, the null variant when the key is missing or `v` is not an object. -/
def JsonVal.get {D : Type} (v : JsonVal D) (key : String) : JsonVal D :=
  match v with
  | .obj members => (members.lookup key).getD .null
  | _ => .null

/-- The test `v.is<JsonObject>()`. -/
def JsonVal.isObject {D : Type} : JsonVal D → Bool
  | .obj _ => true
  | _ => false

/-- What the C++ toolchain and ArduinoJson supply and `main.cpp` only calls. -/
structure Platform (F D : Type) where
  /-- The `float` literal written `m`e-`k` in the source (`15.0f` is `flit 150 1`). -/
  flit : Int → Nat → F
  /-- Conversion `static_cast<float>` of an integer. -/
  intToFloat : Int → F
  /-- Conversion `static_cast<float>` of a `JsonFloat`. -/
  narrow : D → F
  /-- Conversion of a `float` to the `JsonFloat` a variant stores. -/
  widen : F → D
  /-- The test `x != 0` on a `JsonFloat`. -/
  floatNonzero : D → Bool
  /-- Range-checked `convertNumber` of a `JsonFloat` to an unsigned type with the given maximum. -/
  floatToUInt : Nat → D → Nat
  /-- The library's `parseNumber<float>` on the text of a string variant. -/
  strToFloat : String → F
  /-- The library's `parseNumber` to an unsigned type with the given maximum. -/
  strToUInt : Nat → String → Nat
  /-- Text produced by `serializeJson(doc, out)`. -/
  serializeJson : JsonVal D → String
  /-- Outcome of `deserializeJson(doc, input)` into a document of the given
  capacity: `none` for any `DeserializationError`, else the parsed tree. -/
  deserializeJson : Nat → String → Option (JsonVal D)

variable {F D : Type}

/-- Reader `v.as<bool>()`: a boolean is itself, a number is `!= 0`, null is
false, every other variant is true. -/
def Platform.asBool (P : Platform F D) : JsonVal D → Bool
  | .bool b => b
  | .int n => n != 0
  | .float x => P.floatNonzero x
  | .null => false
  | _ => true

/-- Reader `v.as<float>()`: numbers and booleans are cast, a string goes
through `parseNumber`, everything else reads as 0. -/
def Platform.asFloat (P : Platform F D) : JsonVal D → F
  | .bool b => P.intToFloat (if b then 1 else 0)
  | .int n => P.intToFloat n
  | .float x => P.narrow x
  | .str s => P.strToFloat s
  | _ => P.intToFloat 0

/-- Readers `v.as<uint8_t>()` (`max = 255`) and `v.as<uint16_t>()`
(`max = 65535`): an integer that fits the type is itself, one that does not
fit reads as 0. -/
def Platform.asUInt (P : Platform F D) (max : Nat) : JsonVal D → Nat
  | .bool b => if b then 1 else 0
  | .int n => if 0 ≤ n ∧ n ≤ (max : Int) then n.toNat else 0
  | .float x => P.floatToUInt max x
  | .str s => P.strToUInt max s
  | _ => 0

/-- Reader `v.as<String>()`: a string variant is its text, any other variant
is rendered as JSON text. -/
def Platform.asString (P : Platform F D) : JsonVal D → String
  | .str s => s
  | v => P.serializeJson v

/-! ## The record `RuntimeCfg` (main.cpp 15-24) -/

/-- Group `cfg.ac`. -/
structure AcCfg where
  zero_cross : Bool
  half_cycle : Bool
deriving DecidableEq, Repr

/-- Group `cfg.dc`; `pwm` is a `uint8_t`. -/
structure DcCfg (F : Type) where
  i_limit : F
  pwm : Nat
deriving DecidableEq, Repr

/-- Group `cfg.sc`. -/
structure ScCfg (F : Type) where
  precharge : Bool
  joule : F
deriving DecidableEq, Repr

/-- Group `cfg.sensors`. -/
structure SensorsCfg where
  zmpt : Bool
  acs712 : Bool
  ina219 : Bool
  ads1115 : Bool
  web_beep : Bool
deriving DecidableEq, Repr

/-- Group `cfg.guards`. -/
structure GuardsCfg (F : Type) where
  v_cutoff : F
  i_guard : F
  mcb_guard : Bool
deriving DecidableEq, Repr

/-- Group `cfg.aut`; `settle_ms` and `retrig_ms` are `uint16_t`. -/
structure AutCfg (F : Type) where
  enabled : Bool
  i_thresh_arms : F
  v_cutin_vrms : F
  settle_ms : Nat
  retrig_ms : Nat
deriving DecidableEq, Repr

/-- The record `struct RuntimeCfg`; `active_slot` is a `uint8_t`. -/
structure RuntimeCfg (F : Type) where
  backend : String
  ac : AcCfg
  dc : DcCfg F
  sc : ScCfg F
  sensors : SensorsCfg
  guards : GuardsCfg F
  aut : AutCfg F
  active_slot : Nat
deriving DecidableEq, Repr

/-- The mutable state the functions act on: the global `cfg` and the text
stored under key `runtime` of the `wseries` preferences namespace (`""` when
nothing is stored, the default `getString` is given). -/
structure Sys (F : Type) where
  cfg : RuntimeCfg F
  nvs : String
deriving DecidableEq, Repr

/-! ## Defaults, load and save (main.cpp 33-94) -/

/-- The record `loadDefaults` writes (main.cpp 34-41). -/
def defaultCfg (P : Platform F D) : RuntimeCfg F :=
  { backend := "AC"
    ac := { zero_cross := true, half_cycle := false }
    dc := { i_limit := P.flit 150 1, pwm := 80 }
    sc := { precharge := false, joule := P.flit 0 1 }
    sensors := { zmpt := true, acs712 := true, ina219 := false, ads1115 := false, web_beep := true }
    guards := { v_cutoff := P.flit 1800 1, i_guard := P.flit 150 1, mcb_guard := true }
    aut := { enabled := true, i_thresh_arms := P.flit 15 1, v_cutin_vrms := P.flit 1800 1,
             settle_ms := 60, retrig_ms := 800 }
    active_slot := 1 }

/-- Function `loadDefaults()`. -/
def loadDefaults (P : Platform F D) (s : Sys F) : Sys F :=
  { s with cfg := defaultCfg P }

/-- The assignments of `loadConfig` after a successful parse (main.cpp 52-74):
every field is read from document `d`, the `aut` group only when `d["aut"]`
is an object. -/
def readDoc (P : Platform F D) (d : JsonVal D) (c : RuntimeCfg F) : RuntimeCfg F :=
  { backend := P.asString (d.get "backend")
    ac := { zero_cross := P.asBool ((d.get "ac").get "zero_cross")
            half_cycle := P.asBool ((d.get "ac").get "half_cycle") }
    dc := { i_limit := P.asFloat ((d.get "dc").get "i_limit")
            pwm := P.asUInt 255 ((d.get "dc").get "pwm") }
    sc := { precharge := P.asBool ((d.get "sc").get "precharge")
            joule := P.asFloat ((d.get "sc").get "joule") }
    sensors := { zmpt := P.asBool ((d.get "sensors").get "zmpt")
                 acs712 := P.asBool ((d.get "sensors").get "acs712")
                 ina219 := P.asBool ((d.get "sensors").get "ina219")
                 ads1115 := P.asBool ((d.get "sensors").get "ads1115")
                 web_beep := P.asBool ((d.get "sensors").get "web_beep") }
    guards := { v_cutoff := P.asFloat ((d.get "guards").get "v_cutoff")
                i_guard := P.asFloat ((d.get "guards").get "i_guard")
                mcb_guard := P.asBool ((d.get "guards").get "mcb_guard") }
    aut := if (d.get "aut").isObject then
             { enabled := P.asBool ((d.get "aut").get "enabled")
               i_thresh_arms := P.asFloat ((d.get "aut").get "i_thresh_arms")
               v_cutin_vrms := P.asFloat ((d.get "aut").get "v_cutin_vrms")
               settle_ms := P.asUInt 65535 ((d.get "aut").get "settle_ms")
               retrig_ms := P.asUInt 65535 ((d.get "aut").get "retrig_ms") }
           else c.aut
    active_slot := P.asUInt 255 ((d.get "slots").get "active") }

/-- Function `loadConfig()` (main.cpp 44-75): defaults when the stored text is
empty or `deserializeJson` reports an error, else the fields of the parsed
document. -/
def loadConfig (P : Platform F D) (s : Sys F) : Sys F :=
  if s.nvs.length = 0 then loadDefaults P s
  else
    match P.deserializeJson 2048 s.nvs with
    | none => loadDefaults P s
    | some d => { s with cfg := readDoc P d s.cfg }

/-- The document `saveConfig` builds from `cfg` (main.cpp 78-91).  The 2048
byte pool of the document is taken to hold the record, as it does for every
backend text of ordinary length. -/
def saveDoc (P : Platform F D) (c : RuntimeCfg F) : JsonVal D :=
  .obj [
    ("backend", .str c.backend),
    ("ac", .obj [("zero_cross", .bool c.ac.zero_cross), ("half_cycle", .bool c.ac.half_cycle)]),
    ("dc", .obj [("i_limit", .float (P.widen c.dc.i_limit)), ("pwm", .int c.dc.pwm)]),
    ("sc", .obj [("precharge", .bool c.sc.precharge), ("joule", .float (P.widen c.sc.joule))]),
    ("sensors", .obj [("zmpt", .bool c.sensors.zmpt), ("acs712", .bool c.sensors.acs712),
                      ("ina219", .bool c.sensors.ina219), ("ads1115", .bool c.sensors.ads1115),
                      ("web_beep", .bool c.sensors.web_beep)]),
    ("guards", .obj [("v_cutoff", .float (P.widen c.guards.v_cutoff)),
                     ("i_guard", .float (P.widen c.guards.i_guard)),
                     ("mcb_guard", .bool c.guards.mcb_guard)]),
    ("aut", .obj [("enabled", .bool c.aut.enabled),
                  ("i_thresh_arms", .float (P.widen c.aut.i_thresh_arms)),
                  ("v_cutin_vrms", .float (P.widen c.aut.v_cutin_vrms)),
                  ("settle_ms", .int c.aut.settle_ms), ("retrig_ms", .int c.aut.retrig_ms)]),
    ("slots", .obj [("active", .int c.active_slot)])]

/-- Function `saveConfig()` (main.cpp 77-94): the serialized document replaces
the stored text. -/
def saveConfig (P : Platform F D) (s : Sys F) : Sys F :=
  { s with nvs := P.serializeJson (saveDoc P s.cfg) }

/-! ## HTTP handlers (main.cpp 108-177) -/

/-- The document the `GET /api/config` handler builds (main.cpp 109-122). -/
def getConfigDoc (P : Platform F D) (c : RuntimeCfg F) : JsonVal D :=
  .obj [
    ("backend", .str c.backend),
    ("ac", .obj [("zero_cross", .bool c.ac.zero_cross), ("half_cycle", .bool c.ac.half_cycle)]),
    ("dc", .obj [("i_limit", .float (P.widen c.dc.i_limit)), ("pwm", .int c.dc.pwm)]),
    ("sc", .obj [("precharge", .bool c.sc.precharge), ("joule", .float (P.widen c.sc.joule))]),
    ("sensors", .obj [("zmpt", .bool c.sensors.zmpt), ("acs712", .bool c.sensors.acs712),
                      ("ina219", .bool c.sensors.ina219), ("ads1115", .bool c.sensors.ads1115),
                      ("web_beep", .bool c.sensors.web_beep)]),
    ("guards", .obj [("v_cutoff", .float (P.widen c.guards.v_cutoff)),
                     ("i_guard", .float (P.widen c.guards.i_guard)),
                     ("mcb_guard", .bool c.guards.mcb_guard)]),
    ("aut", .obj [("enabled", .bool c.aut.enabled),
                  ("i_thresh_arms", .float (P.widen c.aut.i_thresh_arms)),
                  ("v_cutin_vrms", .float (P.widen c.aut.v_cutin_vrms)),
                  ("settle_ms", .int c.aut.settle_ms), ("retrig_ms", .int c.aut.retrig_ms)]),
    ("slots", .obj [("active", .int c.active_slot)])]

/-- Handler of `GET /api/config` (main.cpp 108-124): status 200 and the
serialized document. -/
def getConfig (P : Platform F D) (s : Sys F) : Nat × String :=
  (200, P.serializeJson (getConfigDoc P s.cfg))

/-- Body handler of `POST /api/config/backend` (main.cpp 127-139), run on a
body that arrives in one piece.  The result is the new state and the status
the body handler itself sends: 400 on a parse error, nothing otherwise (the
204 is sent by the separate request callback of main.cpp 126). -/
def backendBody (P : Platform F D) (s : Sys F) (body : String) : Sys F × Option Nat :=
  match P.deserializeJson 2048 body with
  | none => (s, some 400)
  | some d =>
    (saveConfig P { s with cfg := { s.cfg with
        backend := P.asString (d.get "backend")
        ac := { zero_cross := P.asBool ((d.get "ac").get "zero_cross")
                half_cycle := P.asBool ((d.get "ac").get "half_cycle") }
        dc := { i_limit := P.asFloat ((d.get "dc").get "i_limit")
                pwm := P.asUInt 255 ((d.get "dc").get "pwm") }
        sc := { precharge := P.asBool ((d.get "sc").get "precharge")
                joule := P.asFloat ((d.get "sc").get "joule") } } }, none)

/-- Body handler of `POST /api/config/sensors` (main.cpp 143-152); `web_beep`
is read at the top level of the body. -/
def sensorsBody (P : Platform F D) (s : Sys F) (body : String) : Sys F × Option Nat :=
  match P.deserializeJson 1024 body with
  | none => (s, some 400)
  | some d =>
    (saveConfig P { s with cfg := { s.cfg with
        sensors := { zmpt := P.asBool ((d.get "sensors").get "zmpt")
                     acs712 := P.asBool ((d.get "sensors").get "acs712")
                     ina219 := P.asBool ((d.get "sensors").get "ina219")
                     ads1115 := P.asBool ((d.get "sensors").get "ads1115")
                     web_beep := P.asBool (d.get "web_beep") } } }, none)

/-- Body handler of `POST /api/config/guards` (main.cpp 156-163). -/
def guardsBody (P : Platform F D) (s : Sys F) (body : String) : Sys F × Option Nat :=
  match P.deserializeJson 512 body with
  | none => (s, some 400)
  | some d =>
    (saveConfig P { s with cfg := { s.cfg with
        guards := { v_cutoff := P.asFloat ((d.get "guards").get "v_cutoff")
                    i_guard := P.asFloat ((d.get "guards").get "i_guard")
                    mcb_guard := P.asBool ((d.get "guards").get "mcb_guard") } } }, none)

/-- Body handler of `POST /api/config/auto_trigger` (main.cpp 167-176); the
fields are read under `aut.ac`. -/
def autoTriggerBody (P : Platform F D) (s : Sys F) (body : String) : Sys F × Option Nat :=
  match P.deserializeJson 512 body with
  | none => (s, some 400)
  | some d =>
    (saveConfig P { s with cfg := { s.cfg with
        aut := { enabled := P.asBool (((d.get "aut").get "ac").get "enabled")
                 i_thresh_arms := P.asFloat (((d.get "aut").get "ac").get "i_thresh_arms")
                 v_cutin_vrms := P.asFloat (((d.get "aut").get "ac").get "v_cutin_vrms")
                 settle_ms := P.asUInt 65535 (((d.get "aut").get "ac").get "settle_ms")
                 retrig_ms := P.asUInt 65535 (((d.get "aut").get "ac").get "retrig_ms") } } }, none)

/-! ## A reference platform

An executable instance of `Platform`, used to run the program on concrete
request bodies and stored texts: decimal fixed point with nine fractional
digits stands for both float types, and the text layer is a plain JSON
printer and reader (no string escapes, no exponents). -/

/-- Decimal fixed point: the value `nano` times ten to the minus nine. -/
structure Dec9 where
  nano : Int
deriving DecidableEq, Repr

/-- JSON white space. -/
def isWs (c : Char) : Bool :=
  c = ' ' || c = '\n' || c = '\t' || c = '\r'

/-- Drops leading white space. -/
def skipWs : List Char → List Char
  | [] => []
  | c :: cs => if isWs c then skipWs cs else c :: cs

/-- Value of a decimal digit. -/
def digitVal (c : Char) : Option Nat :=
  if '0' ≤ c ∧ c ≤ '9' then some (c.toNat - 48) else none

/-- Reads the leading digits: accumulated value, digit count, rest. -/
def readDigits : List Char → Nat → Nat → Nat × Nat × List Char
  | [], v, k => (v, k, [])
  | c :: cs, v, k =>
    match digitVal c with
    | some d => readDigits cs (10 * v + d) (k + 1)
    | none => (v, k, c :: cs)

/-- Reads a number token: an integer variant without a fraction, a float
variant with one (digits after the ninth are dropped). -/
def readNumber (cs : List Char) : Option (JsonVal Dec9 × List Char) :=
  let neg := cs.head? = some '-'
  let cs1 := if neg then cs.tail else cs
  match readDigits cs1 0 0 with
  | (i, ki, r1) =>
    if ki = 0 then none
    else
      match r1 with
      | '.' :: r2 =>
        match readDigits r2 0 0 with
        | (f, kf, r3) =>
          if kf = 0 then none
          else
            let frac : Nat := if kf ≤ 9 then f * 10 ^ (9 - kf) else f / 10 ^ (kf - 9)
            let nano : Int := (i : Int) * 10 ^ 9 + (frac : Int)
            some (.float ⟨if neg then -nano else nano⟩, r3)
      | _ => some (.int (if neg then -(i : Int) else (i : Int)), r1)

/-- Reads a string body up to the closing quote; escapes are not supported. -/
def readString : List Char → List Char → Option (String × List Char)
  | [], _ => none
  | c :: cs, acc =>
    if c = '"' then some (String.mk acc.reverse, cs)
    else if c = '\\' then none
    else readString cs (c :: acc)

mutual
/-- Reads one JSON value; `fuel` bounds the nesting of calls. -/
def readValue : Nat → List Char → Option (JsonVal Dec9 × List Char)
  | 0, _ => none
  | fuel + 1, cs =>
    match skipWs cs with
    | 'n' :: 'u' :: 'l' :: 'l' :: r => some (.null, r)
    | 't' :: 'r' :: 'u' :: 'e' :: r => some (.bool true, r)
    | 'f' :: 'a' :: 'l' :: 's' :: 'e' :: r => some (.bool false, r)
    | '"' :: r => (readString r []).map (fun p => (.str p.1, p.2))
    | '[' :: r =>
      match skipWs r with
      | ']' :: r1 => some (.arr [], r1)
      | _ => (readElems fuel r).map (fun p => (.arr p.1, p.2))
    | '{' :: r =>
      match skipWs r with
      | '}' :: r1 => some (.obj [], r1)
      | _ => (readMembers fuel r).map (fun p => (.obj p.1, p.2))
    | other => readNumber other
/-- Reads array elements up to the closing bracket. -/
def readElems : Nat → List Char → Option (List (JsonVal Dec9) × List Char)
  | 0, _ => none
  | fuel + 1, cs =>
    match readValue fuel cs with
    | none => none
    | some (v, r) =>
      match skipWs r with
      | ',' :: r1 => (readElems fuel r1).map (fun p => (v :: p.1, p.2))
      | ']' :: r1 => some ([v], r1)
      | _ => none
/-- Reads object members up to the closing brace. -/
def readMembers : Nat → List Char → Option (List (String × JsonVal Dec9) × List Char)
  | 0, _ => none
  | fuel + 1, cs =>
    match skipWs cs with
    | '"' :: r =>
      match readString r [] with
      | none => none
      | some (k, r1) =>
        match skipWs r1 with
        | ':' :: r2 =>
          match readValue fuel r2 with
          | none => none
          | some (v, r3) =>
            match skipWs r3 with
            | ',' :: r4 => (readMembers fuel r4).map (fun p => ((k, v) :: p.1, p.2))
            | '}' :: r4 => some ([(k, v)], r4)
            | _ => none
        | _ => none
    | _ => none
end

/-- Decimal text of an integer. -/
def intText (n : Int) : List Char :=
  if n < 0 then '-' :: Nat.toDigits 10 n.natAbs else Nat.toDigits 10 n.natAbs

/-- Decimal text of a fixed-point value, without trailing zeros. -/
def dec9Text (x : Dec9) : List Char :=
  let m := x.nano.natAbs
  let sign : List Char := if x.nano < 0 then ['-'] else []
  if m % 10 ^ 9 = 0 then sign ++ Nat.toDigits 10 (m / 10 ^ 9)
  else
    sign ++ Nat.toDigits 10 (m / 10 ^ 9) ++
      '.' :: ((Nat.toDigits 10 (10 ^ 9 + m % 10 ^ 9)).tail.reverse.dropWhile (· == '0')).reverse

mutual
/-- Compact JSON text of a value. -/
def printValue : JsonVal Dec9 → List Char
  | .null => ['n', 'u', 'l', 'l']
  | .bool b => if b then ['t', 'r', 'u', 'e'] else ['f', 'a', 'l', 's', 'e']
  | .int n => intText n
  | .float x => dec9Text x
  | .str s => '"' :: s.data ++ ['"']
  | .arr xs => '[' :: printElems xs ++ [']']
  | .obj ms => '{' :: printMembers ms ++ ['}']
/-- Comma separated elements. -/
def printElems : List (JsonVal Dec9) → List Char
  | [] => []
  | [x] => printValue x
  | x :: y :: xs => printValue x ++ ',' :: printElems (y :: xs)
/-- Comma separated members. -/
def printMembers : List (String × JsonVal Dec9) → List Char
  | [] => []
  | [(k, x)] => '"' :: k.data ++ '"' :: ':' :: printValue x
  | (k, x) :: y :: xs => '"' :: k.data ++ '"' :: ':' :: printValue x ++ ',' :: printMembers (y :: xs)
end

/-- The reference platform. -/
def refPlatform : Platform Dec9 Dec9 where
  flit m k := ⟨m * 10 ^ (9 - k)⟩
  intToFloat n := ⟨n * 10 ^ 9⟩
  narrow x := x
  widen x := x
  floatNonzero x := x.nano != 0
  floatToUInt max x :=
    if 0 ≤ x.nano ∧ x.nano / 10 ^ 9 ≤ (max : Int) then (x.nano / 10 ^ 9).toNat else 0
  strToFloat s :=
    match readNumber s.data with
    | some (.int n, _) => ⟨n * 10 ^ 9⟩
    | some (.float x, _) => x
    | _ => ⟨0⟩
  strToUInt max s :=
    match readNumber s.data with
    | some (.int n, _) => if 0 ≤ n ∧ n ≤ (max : Int) then n.toNat else 0
    | _ => 0
  serializeJson v := String.mk (printValue v)
  deserializeJson _ s := (readValue (2 * s.length + 2) s.data).map Prod.fst

/-! ## Predicates used by the statements -/

/-- The four update endpoints registered by `setupRoutes`. -/
inductive Endpoint where
  | backend
  | sensors
  | guards
  | auto_trigger
deriving DecidableEq, Repr

/-- Capacity of the `DynamicJsonDocument` each body handler parses into. -/
def Endpoint.capacity : Endpoint → Nat
  | .backend => 2048
  | .sensors => 1024
  | .guards => 512
  | .auto_trigger => 512

/-- The body handler registered for each endpoint. -/
def postBody (P : Platform F D) : Endpoint → Sys F → String → Sys F × Option Nat
  | .backend => backendBody P
  | .sensors => sensorsBody P
  | .guards => guardsBody P
  | .auto_trigger => autoTriggerBody P

/-! ## Concrete inputs on the reference platform -/

/-- A tuned record: every field differs from what a missing member reads as. -/
def tunedCfg : RuntimeCfg Dec9 :=
  { backend := "Supercap"
    ac := { zero_cross := true, half_cycle := true }
    dc := { i_limit := ⟨12500000000⟩, pwm := 100 }
    sc := { precharge := true, joule := ⟨3750000000⟩ }
    sensors := { zmpt := false, acs712 := true, ina219 := true, ads1115 := true, web_beep := false }
    guards := { v_cutoff := ⟨200000000000⟩, i_guard := ⟨20500000000⟩, mcb_guard := false }
    aut := { enabled := false, i_thresh_arms := ⟨2250000000⟩, v_cutin_vrms := ⟨170000000000⟩,
             settle_ms := 65535, retrig_ms := 40 }
    active_slot := 255 }

/-- Stored text cut off in the middle of a document. -/
def truncatedText : String :=
  "\x7b\"backend\":\"AC\",\"ac\":"

/-- Stored text that is well-formed JSON with members missing and one of the wrong type. -/
def sparseText : String :=
  "\x7b\"backend\":\"DC\",\"guards\":\x7b\"v_cutoff\":\"high\"\x7d\x7d"

/-- Stored text whose `aut` member is a number. -/
def autNumberText : String :=
  "\x7b\"backend\":\"DC\",\"dc\":\x7b\"i_limit\":2.5,\"pwm\":40\x7d,\"aut\":5,\"slots\":\x7b\"active\":3\x7d\x7d"

/-- Guards body with a negative cut-off voltage. -/
def negativeCutoffBody : String :=
  "\x7b\"guards\":\x7b\"v_cutoff\":-5,\"i_guard\":15,\"mcb_guard\":true\x7d\x7d"

/-- Backend body with `dc.pwm = 150`. -/
def pwm150Body : String :=
  "\x7b\"backend\":\"DC\",\"ac\":\x7b\"zero_cross\":true,\"half_cycle\":false\x7d,\"dc\":\x7b\"i_limit\":15,\"pwm\":150\x7d,\"sc\":\x7b\"precharge\":false,\"joule\":0\x7d\x7d"

/-- Backend body that carries only the `backend` member. -/
def backendOnlyBody : String :=
  "\x7b\"backend\":\"DC\"\x7d"

/-- Sensors body whose top-level `web_beep` is the number 1 and whose nested one is false. -/
def beepNumberBody : String :=
  "\x7b\"sensors\":\x7b\"zmpt\":true,\"acs712\":true,\"ina219\":false,\"ads1115\":false,\"web_beep\":false\x7d,\"web_beep\":1\x7d"

/-- Sensors body with `web_beep` true at the top level and false under `sensors`. -/
def beepTopBody : String :=
  "\x7b\"sensors\":\x7b\"zmpt\":true,\"web_beep\":false\x7d,\"web_beep\":true\x7d"

/-! ## A platform with the library's nine-decimal float printer

ArduinoJson writes a `JsonFloat` between 1e-5 and 1e7 as its integral part
followed by at most nine decimal places, one less for each integral digit after
the first, rounded half up.  This second executable platform has floats with
twelve fractional digits and a printer that follows that rule, so a float may
carry more digits than the stored text keeps. -/

/-- Decimal fixed point: the value `pico` times ten to the minus twelve. -/
structure Dec12 where
  pico : Int
deriving DecidableEq, Repr

/-- Reads a number token: an integer variant without a fraction, a float
variant with one (digits after the twelfth are dropped). -/
def readNumber12 (cs : List Char) : Option (JsonVal Dec12 × List Char) :=
  let neg := cs.head? = some '-'
  let cs1 := if neg then cs.tail else cs
  match readDigits cs1 0 0 with
  | (i, ki, r1) =>
    if ki = 0 then none
    else
      match r1 with
      | '.' :: r2 =>
        match readDigits r2 0 0 with
        | (f, kf, r3) =>
          if kf = 0 then none
          else
            let frac : Nat := if kf ≤ 12 then f * 10 ^ (12 - kf) else f / 10 ^ (kf - 12)
            let pico : Int := (i : Int) * 10 ^ 12 + (frac : Int)
            some (.float ⟨if neg then -pico else pico⟩, r3)
      | _ => some (.int (if neg then -(i : Int) else (i : Int)), r1)

mutual
/-- Reads one JSON value with twelve-digit floats; `fuel` bounds the nesting of calls. -/
def readValue12 : Nat → List Char → Option (JsonVal Dec12 × List Char)
  | 0, _ => none
  | fuel + 1, cs =>
    match skipWs cs with
    | 'n' :: 'u' :: 'l' :: 'l' :: r => some (.null, r)
    | 't' :: 'r' :: 'u' :: 'e' :: r => some (.bool true, r)
    | 'f' :: 'a' :: 'l' :: 's' :: 'e' :: r => some (.bool false, r)
    | '"' :: r => (readString r []).map (fun p => (.str p.1, p.2))
    | '[' :: r =>
      match skipWs r with
      | ']' :: r1 => some (.arr [], r1)
      | _ => (readElems12 fuel r).map (fun p => (.arr p.1, p.2))
    | '{' :: r =>
      match skipWs r with
      | '}' :: r1 => some (.obj [], r1)
      | _ => (readMembers12 fuel r).map (fun p => (.obj p.1, p.2))
    | other => readNumber12 other
/-- Reads array elements up to the closing bracket. -/
def readElems12 : Nat → List Char → Option (List (JsonVal Dec12) × List Char)
  | 0, _ => none
  | fuel + 1, cs =>
    match readValue12 fuel cs with
    | none => none
    | some (v, r) =>
      match skipWs r with
      | ',' :: r1 => (readElems12 fuel r1).map (fun p => (v :: p.1, p.2))
      | ']' :: r1 => some ([v], r1)
      | _ => none
/-- Reads object members up to the closing brace. -/
def readMembers12 : Nat → List Char → Option (List (String × JsonVal Dec12) × List Char)
  | 0, _ => none
  | fuel + 1, cs =>
    match skipWs cs with
    | '"' :: r =>
      match readString r [] with
      | none => none
      | some (k, r1) =>
        match skipWs r1 with
        | ':' :: r2 =>
          match readValue12 fuel r2 with
          | none => none
          | some (v, r3) =>
            match skipWs r3 with
            | ',' :: r4 => (readMembers12 fuel r4).map (fun p => ((k, v) :: p.1, p.2))
            | '}' :: r4 => some ([(k, v)], r4)
            | _ => none
        | _ => none
    | _ => none
end

/-- Text of a `JsonFloat` as the library's formatter writes it: the integral
part, then nine decimal places less one for each integral digit after the
first, rounded half up, trailing zeros removed (exponent forms left out). -/
def dec12Text (x : Dec12) : List Char :=
  let m := x.pico.natAbs
  let sign : List Char := if x.pico < 0 then ['-'] else []
  let places := 9 - ((Nat.toDigits 10 (m / 10 ^ 12)).length - 1)
  let unit := 10 ^ (12 - places)
  let total := (m + unit / 2) / unit
  if total % 10 ^ places = 0 then sign ++ Nat.toDigits 10 (total / 10 ^ places)
  else
    sign ++ Nat.toDigits 10 (total / 10 ^ places) ++
      '.' :: ((Nat.toDigits 10 (10 ^ places + total % 10 ^ places)).tail.reverse.dropWhile
        (· == '0')).reverse

mutual
/-- Compact JSON text of a value with the nine-decimal float format. -/
def printValue12 : JsonVal Dec12 → List Char
  | .null => ['n', 'u', 'l', 'l']
  | .bool b => if b then ['t', 'r', 'u', 'e'] else ['f', 'a', 'l', 's', 'e']
  | .int n => intText n
  | .float x => dec12Text x
  | .str s => '"' :: s.data ++ ['"']
  | .arr xs => '[' :: printElems12 xs ++ [']']
  | .obj ms => '{' :: printMembers12 ms ++ ['}']
/-- Comma separated elements. -/
def printElems12 : List (JsonVal Dec12) → List Char
  | [] => []
  | [x] => printValue12 x
  | x :: y :: xs => printValue12 x ++ ',' :: printElems12 (y :: xs)
/-- Comma separated members. -/
def printMembers12 : List (String × JsonVal Dec12) → List Char
  | [] => []
  | [(k, x)] => '"' :: k.data ++ '"' :: ':' :: printValue12 x
  | (k, x) :: y :: xs =>
    '"' :: k.data ++ '"' :: ':' :: printValue12 x ++ ',' :: printMembers12 (y :: xs)
end

set_option maxRecDepth 100000

/-- An integer variant written from an in-range unsigned field reads back as
that field. -/
theorem asUInt_int_of_le (P : Platform F D) (max n : Nat) (h : n ≤ max) :
    P.asUInt max (.int (n : Int)) = n := by
  simp only [Platform.asUInt]
  rw [if_pos ⟨by omega, by omega⟩]
  simp

/-- C2 fails as stated: a stored text that is well-formed JSON with missing and
wrongly typed members is not replaced by the defaults; its `backend` is taken
from the document and the missing members read as false and 0. -/
theorem C2_sparse_document_is_not_defaulted :
    refPlatform.deserializeJson 2048 sparseText =
        some (.obj [("backend", .str "DC"), ("guards", .obj [("v_cutoff", .str "high")])]) ∧
      (loadConfig refPlatform ⟨tunedCfg, sparseText⟩).cfg ≠ defaultCfg refPlatform ∧
      (loadConfig refPlatform ⟨tunedCfg, sparseText⟩).cfg.backend = "DC" ∧
      (loadConfig refPlatform ⟨tunedCfg, sparseText⟩).cfg.ac.zero_cross = false ∧
      (loadConfig refPlatform ⟨tunedCfg, sparseText⟩).cfg.guards.v_cutoff = ⟨0⟩ := by
  refine ⟨rfl, by decide, by decide, by decide, by decide⟩

/-- C2 as amended: when the stored text is empty or `deserializeJson` reports
an error on it, `loadConfig` leaves the record equal to the default record;
a stored text that is not empty and parses is never treated as corrupt:
whatever members the parsed document lacks or mistypes, the record becomes
the field reads of that document.  The store is not touched either way. -/
theorem C2_empty_or_unparseable_store_gives_defaults (P : Platform F D) (s : Sys F) :
    (s.nvs.length = 0 ∨ P.deserializeJson 2048 s.nvs = none →
        (loadConfig P s).cfg = defaultCfg P ∧ (loadConfig P s).nvs = s.nvs) ∧
      (∀ d, s.nvs.length ≠ 0 → P.deserializeJson 2048 s.nvs = some d →
        (loadConfig P s).cfg = readDoc P d s.cfg ∧ (loadConfig P s).nvs = s.nvs) := by
  refine ⟨fun h => ?_, fun d hne hd => ?_⟩
  · unfold loadConfig
    by_cases h0 : s.nvs.length = 0
    · simp [h0, loadDefaults]
    · rcases h with h | h
      · exact absurd h h0
      · simp [h0, h, loadDefaults]
  · simp [loadConfig, hne, hd]

/-- Witness of C2 as amended: a text cut off in the middle of a document gives
the defaults, and the sparse document is read field by field. -/
theorem C2_empty_or_unparseable_store_gives_defaults_witness :
    (truncatedText.length = 0 ∨ refPlatform.deserializeJson 2048 truncatedText = none) ∧
      (loadConfig refPlatform ⟨tunedCfg, truncatedText⟩).cfg = defaultCfg refPlatform ∧
      (loadConfig refPlatform ⟨tunedCfg, truncatedText⟩).nvs = truncatedText ∧
      sparseText.length ≠ 0 ∧
      (loadConfig refPlatform ⟨tunedCfg, sparseText⟩).cfg =
        readDoc refPlatform
          (.obj [("backend", .str "DC"), ("guards", .obj [("v_cutoff", .str "high")])]) tunedCfg :=
  have key1 := (C2_empty_or_unparseable_store_gives_defaults refPlatform
    ⟨tunedCfg, truncatedText⟩).1 (Or.inr rfl)
  have key2 := (C2_empty_or_unparseable_store_gives_defaults refPlatform
    ⟨tunedCfg, sparseText⟩).2 _ (by decide) rfl
  ⟨Or.inr rfl, key1.1, key1.2, by decide, key2.1⟩

/-! ## C3: section isolation -/

/-- C3: for every record and every request body, each section update changes
only its own section: the guards, sensors and auto_trigger updates leave all
seven other fields as they were, and the backend update leaves `sensors`,
`guards`, `aut` and `active_slot` as they were. -/
theorem C3_section_updates_are_isolated (P : Platform F D) (s : Sys F) (body : String) :
    ((guardsBody P s body).1.cfg.backend = s.cfg.backend ∧
      (guardsBody P s body).1.cfg.ac = s.cfg.ac ∧
      (guardsBody P s body).1.cfg.dc = s.cfg.dc ∧
      (guardsBody P s body).1.cfg.sc = s.cfg.sc ∧
      (guardsBody P s body).1.cfg.sensors = s.cfg.sensors ∧
      (guardsBody P s body).1.cfg.aut = s.cfg.aut ∧
      (guardsBody P s body).1.cfg.active_slot = s.cfg.active_slot) ∧
    ((sensorsBody P s body).1.cfg.backend = s.cfg.backend ∧
      (sensorsBody P s body).1.cfg.ac = s.cfg.ac ∧
      (sensorsBody P s body).1.cfg.dc = s.cfg.dc ∧
      (sensorsBody P s body).1.cfg.sc = s.cfg.sc ∧
      (sensorsBody P s body).1.cfg.guards = s.cfg.guards ∧
      (sensorsBody P s body).1.cfg.aut = s.cfg.aut ∧
      (sensorsBody P s body).1.cfg.active_slot = s.cfg.active_slot) ∧
    ((autoTriggerBody P s body).1.cfg.backend = s.cfg.backend ∧
      (autoTriggerBody P s body).1.cfg.ac = s.cfg.ac ∧
      (autoTriggerBody P s body).1.cfg.dc = s.cfg.dc ∧
      (autoTriggerBody P s body).1.cfg.sc = s.cfg.sc ∧
      (autoTriggerBody P s body).1.cfg.sensors = s.cfg.sensors ∧
      (autoTriggerBody P s body).1.cfg.guards = s.cfg.guards ∧
      (autoTriggerBody P s body).1.cfg.active_slot = s.cfg.active_slot) ∧
    ((backendBody P s body).1.cfg.sensors = s.cfg.sensors ∧
      (backendBody P s body).1.cfg.guards = s.cfg.guards ∧
      (backendBody P s body).1.cfg.aut = s.cfg.aut ∧
      (backendBody P s body).1.cfg.active_slot = s.cfg.active_slot) := by
  refine ⟨?_, ?_, ?_, ?_⟩
  · unfold guardsBody
    split <;> simp [saveConfig]
  · unfold sensorsBody
    split <;> simp [saveConfig]
  · unfold autoTriggerBody
    split <;> simp [saveConfig]
  · unfold backendBody
    split <;> simp [saveConfig]

/-! ## C4: guards with a non-positive cut-off -/

/-- C4 fails as stated: a well-formed guards update with `v_cutoff = -5` is
not rejected; no 400 is sent, the record holds the negative cut-off and the
store is rewritten. -/
theorem C4_negative_cutoff_is_stored :
    (guardsBody refPlatform ⟨defaultCfg refPlatform, ""⟩ negativeCutoffBody).2 = none ∧
      (guardsBody refPlatform ⟨defaultCfg refPlatform, ""⟩ negativeCutoffBody).1.cfg.guards.v_cutoff
        = ⟨-5000000000⟩ ∧
      (guardsBody refPlatform ⟨defaultCfg refPlatform, ""⟩ negativeCutoffBody).1.cfg
        ≠ defaultCfg refPlatform ∧
      (guardsBody refPlatform ⟨defaultCfg refPlatform, ""⟩ negativeCutoffBody).1.nvs ≠ "" := by
  refine ⟨by decide, by decide, by decide, by decide⟩

/-- C4 as amended: a well-formed guards update is applied without validation,
whatever its `v_cutoff`: no 400 is sent, the three guard fields are set from
the body, and `saveConfig` runs, so the store holds the serialized updated
record. -/
theorem C4_guards_update_is_applied_unvalidated (P : Platform F D) (s : Sys F) (body : String)
    (d : JsonVal D) (h : P.deserializeJson 512 body = some d) :
    (guardsBody P s body).2 = none ∧
      (guardsBody P s body).1.cfg =
        { s.cfg with guards := { v_cutoff := P.asFloat ((d.get "guards").get "v_cutoff")
                                 i_guard := P.asFloat ((d.get "guards").get "i_guard")
                                 mcb_guard := P.asBool ((d.get "guards").get "mcb_guard") } } ∧
      (guardsBody P s body).1.nvs = P.serializeJson (saveDoc P (guardsBody P s body).1.cfg) := by
  simp [guardsBody, h, saveConfig]

/-- Witness of C4 as amended: the body with `v_cutoff = -5` on the reference
platform, applied to the tuned record. -/
theorem C4_guards_update_is_applied_unvalidated_witness :
    refPlatform.deserializeJson 512 negativeCutoffBody =
        some (.obj [("guards", .obj [("v_cutoff", .int (-5)), ("i_guard", .int 15),
          ("mcb_guard", .bool true)])]) ∧
      (guardsBody refPlatform ⟨tunedCfg, ""⟩ negativeCutoffBody).1.cfg.guards =
        { v_cutoff := ⟨-5000000000⟩, i_guard := ⟨15000000000⟩, mcb_guard := true } :=
  ⟨rfl, by
    have h := (C4_guards_update_is_applied_unvalidated refPlatform ⟨tunedCfg, ""⟩
      negativeCutoffBody _ rfl).2.1
    rw [h]
    rfl⟩

/-! ## C5: pwm outside 0..100 -/

/-- C5 fails as stated: a well-formed backend update with `dc.pwm = 150` is
not rejected; no 400 is sent and `dc.pwm` becomes 150. -/
theorem C5_pwm_150_is_stored :
    (defaultCfg refPlatform).dc.pwm = 80 ∧
      (backendBody refPlatform ⟨defaultCfg refPlatform, ""⟩ pwm150Body).2 = none ∧
      (backendBody refPlatform ⟨defaultCfg refPlatform, ""⟩ pwm150Body).1.cfg.dc.pwm = 150 ∧
      (backendBody refPlatform ⟨defaultCfg refPlatform, ""⟩ pwm150Body).1.cfg
        ≠ defaultCfg refPlatform := by
  refine ⟨by decide, by decide, by decide, by decide⟩

/-- C5 as amended: a well-formed backend update whose `dc.pwm` is an integer
`n` in 0..255, values above 100 included, is accepted without a range check:
no 400 is sent, `dc.pwm` becomes `n` unclamped, and the updated record is
persisted. -/
theorem C5_pwm_is_stored_unvalidated (P : Platform F D) (s : Sys F) (body : String)
    (d : JsonVal D) (n : Nat) (h : P.deserializeJson 2048 body = some d)
    (hn : (d.get "dc").get "pwm" = .int (n : Int)) (h255 : n ≤ 255) :
    (backendBody P s body).2 = none ∧
      (backendBody P s body).1.cfg.dc.pwm = n ∧
      (backendBody P s body).1.nvs = P.serializeJson (saveDoc P (backendBody P s body).1.cfg) := by
  simp [backendBody, h, saveConfig, hn, asUInt_int_of_le P 255 n h255]

/-- Witness of C5 as amended: `pwm = 150` on the reference platform. -/
theorem C5_pwm_is_stored_unvalidated_witness :
    (∃ d, refPlatform.deserializeJson 2048 pwm150Body = some d ∧
        (d.get "dc").get "pwm" = .int ((150 : Nat) : Int)) ∧ 150 ≤ 255 ∧
      (backendBody refPlatform ⟨tunedCfg, ""⟩ pwm150Body).1.cfg.dc.pwm = 150 :=
  ⟨⟨_, rfl, rfl⟩, by decide,
    (C5_pwm_is_stored_unvalidated refPlatform ⟨tunedCfg, ""⟩ pwm150Body _ 150 rfl rfl
      (by decide)).2.1⟩

/-! ## C6: malformed bodies -/

/-- C6: for each of the four update endpoints and every body on which
`deserializeJson` reports an error, the body handler sends 400 and returns the
state unchanged: same in-memory record, same stored text (no `saveConfig`). -/
theorem C6_malformed_body_changes_nothing (P : Platform F D) (ep : Endpoint) (s : Sys F)
    (body : String) (h : P.deserializeJson ep.capacity body = none) :
    postBody P ep s body = (s, some 400) := by
  cases ep <;>
    simp [Endpoint.capacity] at h <;>
    simp [postBody, backendBody, sensorsBody, guardsBody, autoTriggerBody, h]

/-- Witness of C6: a body cut off in the middle, on every endpoint. -/
theorem C6_malformed_body_changes_nothing_witness :
    (∀ ep : Endpoint, refPlatform.deserializeJson ep.capacity truncatedText = none) ∧
      ∀ ep : Endpoint, postBody refPlatform ep ⟨tunedCfg, sparseText⟩ truncatedText =
        (⟨tunedCfg, sparseText⟩, some 400) :=
  ⟨fun _ => rfl, fun ep =>
    C6_malformed_body_changes_nothing refPlatform ep ⟨tunedCfg, sparseText⟩ truncatedText rfl⟩

/-! ## C7: the guards scenario -/

/-- C8 fails as stated: a backend update that carries only the `backend`
member and switches the tuned record from Supercap to DC does not retain the
omitted groups; `ac`, `dc` and `sc` are all reset to false and 0. -/
theorem C8_omitted_groups_are_reset :
    refPlatform.deserializeJson 2048 backendOnlyBody = some (.obj [("backend", .str "DC")]) ∧
      tunedCfg.backend = "Supercap" ∧
      (backendBody refPlatform ⟨tunedCfg, ""⟩ backendOnlyBody).1.cfg.backend = "DC" ∧
      (backendBody refPlatform ⟨tunedCfg, ""⟩ backendOnlyBody).1.cfg.ac ≠ tunedCfg.ac ∧
      (backendBody refPlatform ⟨tunedCfg, ""⟩ backendOnlyBody).1.cfg.dc ≠ tunedCfg.dc ∧
      (backendBody refPlatform ⟨tunedCfg, ""⟩ backendOnlyBody).1.cfg.sc ≠ tunedCfg.sc := by
  refine ⟨rfl, by decide, by decide, by decide, by decide, by decide⟩

/-- C8 as amended: a well-formed backend update replaces `backend`, `ac`, `dc`
and `sc` together from the body, whatever backend it selects: each group takes
the values the body carries for it (so the groups of the other backends are
retained when the body repeats them), and a group the body omits is reset to
false and 0. -/
theorem C8_backend_update_replaces_all_groups (P : Platform F D) (s : Sys F) (body : String)
    (d : JsonVal D) (h : P.deserializeJson 2048 body = some d) :
    (backendBody P s body).1.cfg.backend = P.asString (d.get "backend") ∧
      (backendBody P s body).1.cfg.ac =
        { zero_cross := P.asBool ((d.get "ac").get "zero_cross")
          half_cycle := P.asBool ((d.get "ac").get "half_cycle") } ∧
      (backendBody P s body).1.cfg.dc =
        { i_limit := P.asFloat ((d.get "dc").get "i_limit")
          pwm := P.asUInt 255 ((d.get "dc").get "pwm") } ∧
      (backendBody P s body).1.cfg.sc =
        { precharge := P.asBool ((d.get "sc").get "precharge")
          joule := P.asFloat ((d.get "sc").get "joule") } ∧
      (d.get "ac" = .null →
        (backendBody P s body).1.cfg.ac = { zero_cross := false, half_cycle := false }) ∧
      (d.get "dc" = .null →
        (backendBody P s body).1.cfg.dc = { i_limit := P.intToFloat 0, pwm := 0 }) ∧
      (d.get "sc" = .null →
        (backendBody P s body).1.cfg.sc = { precharge := false, joule := P.intToFloat 0 }) := by
  refine ⟨?_, ?_, ?_, ?_, ?_, ?_, ?_⟩ <;>
    simp [backendBody, h, saveConfig]
  · intro h0
    rw [h0]
    simp [JsonVal.get, Platform.asBool]
  · intro h0
    rw [h0]
    simp [JsonVal.get, Platform.asFloat, Platform.asUInt]
  · intro h0
    rw [h0]
    simp [JsonVal.get, Platform.asFloat, Platform.asBool]

/-- Witness of C8 as amended: the body that carries only `backend`, applied to
the tuned record on the reference platform. -/
theorem C8_backend_update_replaces_all_groups_witness :
    refPlatform.deserializeJson 2048 backendOnlyBody = some (.obj [("backend", .str "DC")]) ∧
      (backendBody refPlatform ⟨tunedCfg, ""⟩ backendOnlyBody).1.cfg.ac =
        { zero_cross := false, half_cycle := false } ∧
      (backendBody refPlatform ⟨tunedCfg, ""⟩ backendOnlyBody).1.cfg.dc =
        { i_limit := ⟨0⟩, pwm := 0 } ∧
      (backendBody refPlatform ⟨tunedCfg, ""⟩ backendOnlyBody).1.cfg.sc =
        { precharge := false, joule := ⟨0⟩ } :=
  have key := C8_backend_update_replaces_all_groups refPlatform ⟨tunedCfg, ""⟩ backendOnlyBody _ rfl
  ⟨rfl, key.2.2.2.2.1 rfl, key.2.2.2.2.2.1 rfl, key.2.2.2.2.2.2 rfl⟩

/-! ## C9: where `web_beep` is read and written -/

/-- C9 fails as stated: a top-level `web_beep` that is not a boolean does not
always read as false; with the number 1 there (and false under `sensors`) the
update sets `sensors.web_beep` to true. -/
theorem C9_numeric_web_beep_reads_true :
    refPlatform.deserializeJson 1024 beepNumberBody =
        some (.obj [("sensors", .obj [("zmpt", .bool true), ("acs712", .bool true),
          ("ina219", .bool false), ("ads1115", .bool false), ("web_beep", .bool false)]),
          ("web_beep", .int 1)]) ∧
      tunedCfg.sensors.web_beep = false ∧
      (sensorsBody refPlatform ⟨tunedCfg, ""⟩ beepNumberBody).1.cfg.sensors.web_beep = true := by
  refine ⟨rfl, by decide, by decide⟩

/-- C9 as amended: after a well-formed sensors update `sensors.web_beep` is
`as<bool>()` of the body's top-level member `web_beep`: that boolean when it
is one, false when it is absent or null, `n != 0` when it is an integer `n`;
it is the same for two bodies with the same top-level member, whatever their
`sensors.web_beep`.  The persisted and the served document carry the value
under `sensors.web_beep` and have no top-level `web_beep`, so a body with the
top-level members of the `GET /api/config` document sets `web_beep` to false. -/
theorem C9_web_beep_read_at_top_level (P : Platform F D) (s : Sys F) (body : String)
    (d : JsonVal D) (h : P.deserializeJson 1024 body = some d) :
    (sensorsBody P s body).1.cfg.sensors.web_beep = P.asBool (d.get "web_beep") ∧
      (∀ b, d.get "web_beep" = .bool b → (sensorsBody P s body).1.cfg.sensors.web_beep = b) ∧
      (d.get "web_beep" = .null → (sensorsBody P s body).1.cfg.sensors.web_beep = false) ∧
      (∀ n, d.get "web_beep" = .int n →
        (sensorsBody P s body).1.cfg.sensors.web_beep = (n != 0)) ∧
      (∀ body2 d2, P.deserializeJson 1024 body2 = some d2 →
        d2.get "web_beep" = d.get "web_beep" →
        (sensorsBody P s body2).1.cfg.sensors.web_beep =
          (sensorsBody P s body).1.cfg.sensors.web_beep) ∧
      (sensorsBody P s body).1.nvs = P.serializeJson (saveDoc P (sensorsBody P s body).1.cfg) ∧
      ((saveDoc P (sensorsBody P s body).1.cfg).get "sensors").get "web_beep" =
        .bool (sensorsBody P s body).1.cfg.sensors.web_beep ∧
      (saveDoc P (sensorsBody P s body).1.cfg).get "web_beep" = .null ∧
      ((getConfigDoc P (sensorsBody P s body).1.cfg).get "sensors").get "web_beep" =
        .bool (sensorsBody P s body).1.cfg.sensors.web_beep ∧
      (getConfigDoc P (sensorsBody P s body).1.cfg).get "web_beep" = .null ∧
      (∀ c, d.get "web_beep" = (getConfigDoc P c).get "web_beep" →
        (sensorsBody P s body).1.cfg.sensors.web_beep = false) := by
  have hw : (sensorsBody P s body).1.cfg.sensors.web_beep = P.asBool (d.get "web_beep") := by
    simp [sensorsBody, h, saveConfig]
  have hnull : ∀ c : RuntimeCfg F, (getConfigDoc P c).get "web_beep" = .null := by
    intro c
    simp [getConfigDoc, JsonVal.get, List.lookup]
  refine ⟨hw, ?_, ?_, ?_, ?_, ?_, ?_, ?_, ?_, hnull _, ?_⟩
  · intro b hb
    rw [hw, hb]
    rfl
  · intro h0
    rw [hw, h0]
    rfl
  · intro n hn
    rw [hw, hn]
    rfl
  · intro body2 d2 h2 heq
    rw [hw, ← heq]
    simp [sensorsBody, h2, saveConfig]
  · simp [sensorsBody, h, saveConfig]
  · simp [saveDoc, JsonVal.get, List.lookup]
  · simp [saveDoc, JsonVal.get, List.lookup]
  · simp [getConfigDoc, JsonVal.get, List.lookup]
  · intro c hc
    rw [hw, hc, hnull c]
    rfl

/-- Witness of C9 as amended: the text served by `GET /api/config` for the
default record (where `web_beep` is true) is posted to the sensors endpoint
on the reference platform, and `web_beep` becomes false. -/
theorem C9_web_beep_read_at_top_level_witness :
    (getConfig refPlatform ⟨defaultCfg refPlatform, ""⟩).1 = 200 ∧
      (∃ d, refPlatform.deserializeJson 1024 (getConfig refPlatform ⟨defaultCfg refPlatform, ""⟩).2
          = some d ∧ d.get "web_beep" = (getConfigDoc refPlatform (defaultCfg refPlatform)).get "web_beep") ∧
      (defaultCfg refPlatform).sensors.web_beep = true ∧
      (sensorsBody refPlatform ⟨defaultCfg refPlatform, ""⟩
        (getConfig refPlatform ⟨defaultCfg refPlatform, ""⟩).2).1.cfg.sensors.web_beep = false :=
  ⟨rfl, ⟨_, rfl, rfl⟩, rfl,
    (C9_web_beep_read_at_top_level refPlatform ⟨defaultCfg refPlatform, ""⟩
      (getConfig refPlatform ⟨defaultCfg refPlatform, ""⟩).2 _ rfl).2.2.2.2.2.2.2.2.2.2
      (defaultCfg refPlatform) rfl⟩

/-! ## C10: a stored document without an `aut` object -/

/-- C10: when the stored text parses and its `aut` member is absent or not an
object, `loadConfig` leaves the five `aut` fields as they were before the call
and overwrites every other field of the record from the document. -/
theorem C10_aut_kept_when_not_an_object (P : Platform F D) (s : Sys F) (d : JsonVal D)
    (hne : s.nvs.length ≠ 0) (hp : P.deserializeJson 2048 s.nvs = some d)
    (ha : (d.get "aut").isObject = false) :
    (loadConfig P s).cfg.aut = s.cfg.aut ∧
      (loadConfig P s).cfg.backend = P.asString (d.get "backend") ∧
      (loadConfig P s).cfg.ac =
        { zero_cross := P.asBool ((d.get "ac").get "zero_cross")
          half_cycle := P.asBool ((d.get "ac").get "half_cycle") } ∧
      (loadConfig P s).cfg.dc =
        { i_limit := P.asFloat ((d.get "dc").get "i_limit")
          pwm := P.asUInt 255 ((d.get "dc").get "pwm") } ∧
      (loadConfig P s).cfg.sc =
        { precharge := P.asBool ((d.get "sc").get "precharge")
          joule := P.asFloat ((d.get "sc").get "joule") } ∧
      (loadConfig P s).cfg.sensors =
        { zmpt := P.asBool ((d.get "sensors").get "zmpt")
          acs712 := P.asBool ((d.get "sensors").get "acs712")
          ina219 := P.asBool ((d.get "sensors").get "ina219")
          ads1115 := P.asBool ((d.get "sensors").get "ads1115")
          web_beep := P.asBool ((d.get "sensors").get "web_beep") } ∧
      (loadConfig P s).cfg.guards =
        { v_cutoff := P.asFloat ((d.get "guards").get "v_cutoff")
          i_guard := P.asFloat ((d.get "guards").get "i_guard")
          mcb_guard := P.asBool ((d.get "guards").get "mcb_guard") } ∧
      (loadConfig P s).cfg.active_slot = P.asUInt 255 ((d.get "slots").get "active") := by
  simp [loadConfig, hne, hp, readDoc, ha]

/-- Witness of C10: a stored text whose `aut` member is the number 5, loaded
over the tuned record on the reference platform. -/
theorem C10_aut_kept_when_not_an_object_witness :
    autNumberText.length ≠ 0 ∧
      (∃ d, refPlatform.deserializeJson 2048 autNumberText = some d ∧
        d.get "aut" = .int 5 ∧ (d.get "aut").isObject = false) ∧
      (loadConfig refPlatform ⟨tunedCfg, autNumberText⟩).cfg.aut = tunedCfg.aut ∧
      (loadConfig refPlatform ⟨tunedCfg, autNumberText⟩).cfg.backend = "DC" ∧
      (loadConfig refPlatform ⟨tunedCfg, autNumberText⟩).cfg.dc = { i_limit := ⟨2500000000⟩, pwm := 40 } ∧
      (loadConfig refPlatform ⟨tunedCfg, autNumberText⟩).cfg.active_slot = 3 :=
  have key := C10_aut_kept_when_not_an_object refPlatform ⟨tunedCfg, autNumberText⟩ _
    (by decide) rfl rfl
  ⟨by decide, ⟨_, rfl, rfl, rfl⟩, key.1, key.2.1, key.2.2.2.1, key.2.2.2.2.2.2.2⟩

end WSeries
